import Mathlib

set_option maxHeartbeats 1000000

namespace AutoCaptcha

/-! Shallow embedding of the auto_captcha browser extension core:
the recognition dispatcher (`ApiManager.recognize`), the adapter cache
(`ApiManager.getAdapter` / `updateAdapter`), the three provider adapters'
request-header construction, the fill engine (`AutoFill.fill` /
`simulateTyping`), the CAPTCHA detector (`CaptchaDetector.scan`,
`calculateConfidence`, `getMostLikelyCaptcha`) and the raster-image capture
strategy (`captureImgElement` / `waitForImageLoad`) of the packaged content
script `src/content/content.js`. -/

/-! ### String helpers (JS `String.prototype.includes` / `toLowerCase`) -/

/-- Does the character list `s` start with the character list `p`? -/
def charsStart : List Char → List Char → Bool
  | _, [] => true
  | [], _ :: _ => false
  | a :: as, b :: bs => a = b && charsStart as bs

/-- Does the character list `s` contain the character list `p` as a contiguous
sublist?  Mirrors JS `s.includes(p)`. -/
def charsHaveSub : List Char → List Char → Bool
  | s, p =>
    charsStart s p ||
      match s with
      | [] => false
      | _ :: as => charsHaveSub as p

/-- JS `s.includes(pat)`. -/
def strIncludes (s pat : String) : Bool :=
  charsHaveSub s.data pat.data

/-- JS `s.toLowerCase()` (ASCII case folding; CJK characters unchanged). -/
def strLower (s : String) : String :=
  String.mk (s.data.map Char.toLower)

/-- JS `s.startsWith(pat)`. -/
def strStarts (s pat : String) : Bool :=
  charsStart s.data pat.data

/-! ### Recognition Dispatcher (`ApiManager.recognize`, openai-compatible.js
lines 328-417).

`Date.now()` is modelled as a clock that starts at 0 and is advanced by the
duration of each adapter attempt and by each backoff delay; the observable
storage/stats side effects and the delays are recorded in an event trace.
`executeWithTimeout(adapter.recognize(...), timeout)` either resolves with
text or rejects with an error message (adapter failure or the timeout
rejection); the environment supplies that per-attempt result. -/

/-- Observable events of one dispatcher call: an adapter attempt starting,
an awaited backoff delay, a `storage.updateStats` write and a
`storage.addHistory` write. -/
inductive DispatchEv where
  | attemptStart (i : Nat)
  | delayMs (ms : Nat)
  | statsUpdate (success : Bool) (elapsed : Nat)
  | historyAdd (success : Bool) (result : String)
deriving Repr, DecidableEq

/-- The structured outcome value returned by `recognize`. -/
structure Outcome where
  success : Bool
  text : Option String
  error : Option String
  elapsed : Nat
  attempt : Option Nat
deriving Repr, DecidableEq

/-- Environment of one `recognize` call: the persisted store's active config
and settings, the caller's options, and the behaviour of
`executeWithTimeout(adapter.recognize ...)` at each attempt index
(`.ok text` or `.error message`, the latter covering both adapter failures
and the timeout rejection), plus the wall-clock duration of each attempt. -/
structure DispatchEnv where
  hasActiveConfig : Bool
  configName : String
  settingsRetryCount : Nat
  optRetryCount : Option Nat
  attemptResult : Nat → Except String String
  attemptDuration : Nat → Nat

/-- JS `a || b` for an optional numeric option: `undefined` and `0` both fall
through to the default. -/
def jsOrNat (o : Option Nat) (d : Nat) : Nat :=
  match o with
  | none => d
  | some v => if v = 0 then d else v

/-- Result of the retry loop: the events it emitted, either a success
(text and 1-based attempt number) or the `throw lastError` value
(`.error none` models `throw null`, possible only when the loop body never
ran), and the clock on exit. -/
structure LoopRes where
  events : List DispatchEv
  result : Except (Option String) (String × Nat)
  clock : Nat

/-- The `for (let attempt = 0; attempt < retryCount; attempt++)` retry loop of
`ApiManager.recognize`.  `remaining` is the number of loop iterations still to
run (`retryCount - attempt`); on success the loop records stats and history and
returns, on failure it waits `1000 * (attempt + 1)` ms if iterations remain,
and after the last iteration the loop falls through to `throw lastError`. -/
def retryLoop (env : DispatchEnv) : Nat → Nat → Nat → Option String → LoopRes
  | 0, _, clock, lastError =>
      { events := [], result := .error lastError, clock := clock }
  | remaining + 1, attempt, clock, _ =>
      let clock1 := clock + env.attemptDuration attempt
      match env.attemptResult attempt with
      | .ok text =>
          { events := [.attemptStart attempt, .statsUpdate true clock1,
                       .historyAdd true text],
            result := .ok (text, attempt + 1), clock := clock1 }
      | .error e =>
          if remaining = 0 then
            { events := [.attemptStart attempt], result := .error (some e),
              clock := clock1 }
          else
            let d := 1000 * (attempt + 1)
            let rest := retryLoop env remaining (attempt + 1) (clock1 + d) (some e)
            { events := .attemptStart attempt :: .delayMs d :: rest.events,
              result := rest.result, clock := rest.clock }

/-- Result of a whole `recognize` call: its event trace and either the
returned outcome or an exception escaping to the caller. -/
structure DispatchRun where
  events : List DispatchEv
  outcome : Except String Outcome

/-- The message of `new Error('请先配置API')` thrown when no active provider
configuration exists. -/
def notConfiguredMsg : String := "请先配置API"

/-- The TypeError raised inside the catch block when `error` is `null`
(reading `error.message`). -/
def nullMessageTypeError : String :=
  "TypeError: Cannot read properties of null (reading 'message')"

/-- `ApiManager.recognize`: resolve the active config (failing immediately into
the catch block when there is none), run the retry loop, and convert the result
into a structured outcome.  The catch block records one stats update and one
history entry; if the thrown value was `null` (zero loop iterations) the catch
block itself crashes reading `error.message` after the stats write. -/
def dispatchRecognize (env : DispatchEnv) : DispatchRun :=
  if env.hasActiveConfig then
    let retryCount := jsOrNat env.optRetryCount env.settingsRetryCount
    let lr := retryLoop env retryCount 0 0 none
    match lr.result with
    | .ok (text, att) =>
        { events := lr.events,
          outcome := .ok { success := true, text := some text, error := none,
                           elapsed := lr.clock, attempt := some att } }
    | .error (some e) =>
        { events := lr.events ++
            [.statsUpdate false lr.clock, .historyAdd false e],
          outcome := .ok { success := false, text := none, error := some e,
                           elapsed := lr.clock, attempt := none } }
    | .error none =>
        { events := lr.events ++ [.statsUpdate false lr.clock],
          outcome := .error nullMessageTypeError }
  else
    { events := [.statsUpdate false 0, .historyAdd false notConfiguredMsg],
      outcome := .ok { success := false, text := none,
                       error := some notConfiguredMsg, elapsed := 0,
                       attempt := none } }

/-- Number of adapter attempts recorded in a trace. -/
def countAttempts (evs : List DispatchEv) : Nat :=
  evs.countP fun e => match e with | .attemptStart _ => true | _ => false

/-- Number of `storage.updateStats` writes recorded in a trace. -/
def countStats (evs : List DispatchEv) : Nat :=
  evs.countP fun e => match e with | .statsUpdate _ _ => true | _ => false

/-- Number of `storage.addHistory` writes recorded in a trace. -/
def countHistory (evs : List DispatchEv) : Nat :=
  evs.countP fun e => match e with | .historyAdd _ _ => true | _ => false

/-! ### Provider adapters and the `ApiManager` adapter cache
(openai-compatible.js, claude-adapter.js, gemini-adapter.js).

A JS config object is modelled with `Option` fields (a missing key does not
override the adapter's spread defaults); `customHeaders` is a key-ordered
object modelled as an association list. -/

/-- A persisted `ProviderConfig` as passed to `getAdapter` /
the adapter constructors. -/
structure ApiConfig where
  id : Option String := none
  cfgType : String := "openai_compatible"
  name : Option String := none
  baseUrl : Option String := none
  model : Option String := none
  maxTokens : Option Nat := none
  temperature : Option ℚ := none
  apiKey : Option String := none
  customHeaders : Option (List (String × String)) := none
deriving Repr, DecidableEq

/-- JS `str.replace(/\/+$/, '')`: strip every trailing slash. -/
def stripTrailingSlashes (s : String) : String :=
  String.mk (s.data.reverse.dropWhile (fun c => c = '/')).reverse

/-- Which adapter class was instantiated. -/
inductive AdapterKind where
  | openaiCompatible
  | gemini
  | claude
deriving Repr, DecidableEq

/-- An adapter instance: its class and its config after the constructor's
spread of the class defaults and the trailing-slash normalization of
`baseUrl`. -/
structure AdapterState where
  kind : AdapterKind
  baseUrl : String
  model : String
  maxTokens : Option Nat
  temperature : Option ℚ
  apiKey : Option String
  customHeaders : Option (List (String × String))
deriving Repr, DecidableEq

/-- `new OpenAICompatibleAdapter(config)`. -/
def mkOpenAIAdapter (c : ApiConfig) : AdapterState :=
  { kind := .openaiCompatible
    baseUrl := stripTrailingSlashes (c.baseUrl.getD "https://api.openai.com/v1")
    model := c.model.getD "gpt-4o"
    maxTokens := some (c.maxTokens.getD 100)
    temperature := some (c.temperature.getD (1 / 10))
    apiKey := c.apiKey
    customHeaders := c.customHeaders }

/-- `new GeminiAdapter(config)`. -/
def mkGeminiAdapter (c : ApiConfig) : AdapterState :=
  { kind := .gemini
    baseUrl := stripTrailingSlashes
      (c.baseUrl.getD "https://generativelanguage.googleapis.com/v1beta")
    model := c.model.getD "gemini-1.5-flash"
    maxTokens := c.maxTokens
    temperature := c.temperature
    apiKey := c.apiKey
    customHeaders := c.customHeaders }

/-- `new ClaudeAdapter(config)`. -/
def mkClaudeAdapter (c : ApiConfig) : AdapterState :=
  { kind := .claude
    baseUrl := stripTrailingSlashes (c.baseUrl.getD "https://api.anthropic.com")
    model := c.model.getD "claude-3-5-sonnet-20241022"
    maxTokens := some (c.maxTokens.getD 1024)
    temperature := c.temperature
    apiKey := c.apiKey
    customHeaders := c.customHeaders }

/-- The `switch (config.type)` in `ApiManager.getAdapter` /
`testConnection`: gemini and claude have dedicated cases, everything else
(including the explicit `openai_compatible` case and the `default` branch)
builds an OpenAI-compatible adapter. -/
def buildAdapter (c : ApiConfig) : AdapterState :=
  if c.cfgType = "gemini" then mkGeminiAdapter c
  else if c.cfgType = "claude" then mkClaudeAdapter c
  else mkOpenAIAdapter c

/-- JS `config.id || config.type` (an absent or empty id is falsy). -/
def adapterKey (c : ApiConfig) : String :=
  match c.id with
  | none => c.cfgType
  | some s => if s = "" then c.cfgType else s

/-- The `Map` of cached adapter instances, in insertion order. -/
abbrev AdapterCache := List (String × AdapterState)

/-- JS `Map.prototype.get`. -/
def cacheGet (m : AdapterCache) (k : String) : Option AdapterState :=
  ((m : List (String × AdapterState)).find? fun p => p.1 = k).map fun p => p.2

/-- JS `Map.prototype.set`: overwrite the existing key in place, else append
(caches built by these operations never hold a key twice). -/
def cacheSet : AdapterCache → String → AdapterState → AdapterCache
  | [], k, v => [(k, v)]
  | p :: t, k, v => if p.1 = k then (k, v) :: t else p :: cacheSet t k v

/-- JS `Map.prototype.delete`. -/
def cacheDelete (m : AdapterCache) (k : String) : AdapterCache :=
  (m : List (String × AdapterState)).filter fun p => !(p.1 = k)

/-- `ApiManager.getAdapter(config)`: look up the cache under
`config.id || config.type`; construct and cache a new adapter only on a miss.
Returns the updated cache and the adapter used. -/
def getAdapter (m : AdapterCache) (c : ApiConfig) : AdapterCache × AdapterState :=
  let key := adapterKey c
  match cacheGet m key with
  | some a => (m, a)
  | none =>
      let a := buildAdapter c
      (cacheSet m key a, a)

/-- `ApiManager.updateAdapter(configId, newConfig)`: delete the cache entry if
present, then rebuild it via `getAdapter({ ...newConfig, id: configId })`. -/
def updateAdapter (m : AdapterCache) (configId : String) (nc : ApiConfig) :
    AdapterCache :=
  let m1 := if (cacheGet m configId).isSome then cacheDelete m configId else m
  (getAdapter m1 { nc with id := some configId }).1

/-! Request headers.  A JS plain object used as a header map is modelled as an
association list in key-insertion order; assignment (`headers[k] = v`,
`Object.assign`) overwrites the value of an existing key in place. -/

/-- `obj[k] = v`: overwrite the existing key in place, else append (header
objects built by these operations never hold a key twice). -/
def objSet : List (String × String) → String → String → List (String × String)
  | [], k, v => [(k, v)]
  | p :: t, k, v => if p.1 = k then (k, v) :: t else p :: objSet t k v

/-- `Object.assign(h, custom)`: assign every key of `custom` in order. -/
def objAssign (h custom : List (String × String)) : List (String × String) :=
  custom.foldl (fun acc p => objSet acc p.1 p.2) h

/-- Value of key `k` in the object. -/
def objGet (h : List (String × String)) (k : String) : Option String :=
  (h.find? fun p => p.1 = k).map fun p => p.2

/-- The value a sequence of assignments of `custom` leaves under key `k`
(the last occurrence wins), if `custom` assigns `k` at all. -/
def lastAssigned (custom : List (String × String)) (k : String) :
    Option String :=
  (custom.reverse.find? fun p => p.1 = k).map fun p => p.2

/-- `OpenAICompatibleAdapter.buildHeaders`: Content-Type, then the bearer
Authorization header when an API key is configured (empty string is falsy),
then `Object.assign(headers, customHeaders)`. -/
def buildHeadersOpenAI (a : AdapterState) : List (String × String) :=
  let h : List (String × String) := [("Content-Type", "application/json")]
  let h :=
    match a.apiKey with
    | none => h
    | some key => if key = "" then h else objSet h "Authorization" ("Bearer " ++ key)
  match a.customHeaders with
  | none => h
  | some ch => objAssign h ch

/-- `ClaudeAdapter.buildHeaders`: Content-Type and anthropic-version, then the
x-api-key header when configured, then `Object.assign(headers, customHeaders)`. -/
def buildHeadersClaude (a : AdapterState) : List (String × String) :=
  let h : List (String × String) :=
    [("Content-Type", "application/json"), ("anthropic-version", "2023-06-01")]
  let h :=
    match a.apiKey with
    | none => h
    | some key => if key = "" then h else objSet h "x-api-key" key
  match a.customHeaders with
  | none => h
  | some ch => objAssign h ch

/-- The headers of `GeminiAdapter.recognize`'s `fetch` call: a fixed literal
object (the API key travels in the URL query string; `customHeaders` is never
consulted). -/
def geminiRecognizeHeaders (_ : AdapterState) : List (String × String) :=
  [("Content-Type", "application/json")]

/-! ### Fill Engine (`AutoFill.fill` / `simulateTyping`, content.js lines
479-564).

Synthetic DOM events and awaited delays are recorded in a trace; the input's
`value` is threaded as a string.  `Math.random()` is modelled as an
environment-supplied sequence `rand : Nat → ℚ` of values in `[0, 1)`, one per
typed character. -/

/-- Observable events of one `fill` call. -/
inductive FillEv where
  | focus
  | keydown (c : Char)
  | keyup (c : Char)
  | inputEv
  | changeEv
  | blurEv
  | delayMs (ms : ℚ)
deriving Repr, DecidableEq

/-- The per-character body of `simulateTyping`'s loop, starting at character
index `i` with current input value `v`: keydown, `value += char`, input event,
keyup, then `await delay(50 + Math.random() * 100)`. -/
def typeChars (rand : Nat → ℚ) : Nat → String → List Char →
    List FillEv × String
  | _, v, [] => ([], v)
  | i, v, c :: cs =>
      let d : ℚ := 50 + rand i * 100
      let rest := typeChars rand (i + 1) (v.push c) cs
      ([.keydown c, .inputEv, .keyup c, .delayMs d] ++ rest.1, rest.2)

/-- `AutoFill.simulateTyping(input, text)`: type every character, then fire
one change and one blur event. -/
def simulateTyping (rand : Nat → ℚ) (v : String) (text : String) :
    List FillEv × String :=
  let t := typeChars rand 0 v text.data
  (t.1 ++ [.changeEv, .blurEv], t.2)

/-- `AutoFill.fill(input, text, { simulate: true, autoSubmit: false })` with a
present input element: focus, clear the value, fire an input event for the
clear, then `simulateTyping`; returns the trace, the input's final value, and
the boolean result (`true`: no step threw). -/
def fillSimulate (rand : Nat → ℚ) (text : String) :
    List FillEv × String × Bool :=
  let t := simulateTyping rand "" text
  ([.focus, .inputEv] ++ t.1, t.2, true)

/-- Characters of the keydown events of a trace, in order. -/
def keydownChars (evs : List FillEv) : List Char :=
  evs.filterMap fun e => match e with | .keydown c => some c | _ => none

/-- Characters of the keyup events of a trace, in order. -/
def keyupChars (evs : List FillEv) : List Char :=
  evs.filterMap fun e => match e with | .keyup c => some c | _ => none

/-- Durations of the awaited delays of a trace, in order. -/
def delayVals (evs : List FillEv) : List ℚ :=
  evs.filterMap fun e => match e with | .delayMs d => some d | _ => none

/-- Number of change events in a trace. -/
def countChange (evs : List FillEv) : Nat :=
  evs.countP fun e => match e with | .changeEv => true | _ => false

/-- Number of blur events in a trace. -/
def countBlur (evs : List FillEv) : Nat :=
  evs.countP fun e => match e with | .blurEv => true | _ => false

/-- The four-event block `simulateTyping` emits for character `c` at index
`i`. -/
def typeBlock (rand : Nat → ℚ) (p : Nat × Char) : List FillEv :=
  [.keydown p.2, .inputEv, .keyup p.2, .delayMs (50 + rand p.1 * 100)]

/-! ### CAPTCHA Detector (`CaptchaDetector`, content.js lines 43-264 and
461-470).

The document is a tree of elements; an element occurrence is addressed by its
path (list of child indices from the root).  `getBoundingClientRect` and
`getComputedStyle` are modelled as per-element data captured in the tree;
`querySelectorAll` enumerates matching elements in pre-order (document
order). -/

/-- `DOMRect` essentials (viewport coordinates). -/
structure Rect where
  left : Int
  top : Int
  width : Int
  height : Int
deriving Repr, DecidableEq

/-- `rect.right = rect.left + rect.width`. -/
def rectRight (r : Rect) : Int := r.left + r.width

/-- `rect.bottom = rect.top + rect.height`. -/
def rectBottom (r : Rect) : Int := r.top + r.height

/-- One element's attributes, rendered geometry and computed style.
`srcAttr`/`altAttr` are `none` where the JS property would be `undefined`
(non-img elements). -/
structure ElemData where
  tag : String := "div"
  idAttr : String := ""
  className : String := ""
  srcAttr : Option String := none
  altAttr : Option String := none
  nameAttr : String := ""
  placeholder : String := ""
  typeAttr : Option String := none
  rect : Rect := { left := 0, top := 0, width := 0, height := 0 }
  display : String := "block"
  visibility : String := "visible"
  opacity : String := "1"
deriving Repr, DecidableEq

/-- A DOM subtree: an element and its child elements in order. -/
inductive Dom where
  | el (data : ElemData) (children : List Dom)

/-- The element at the root of a subtree. -/
def dataOf : Dom → ElemData
  | .el d _ => d

mutual

/-- All elements of the tree with their paths, in pre-order (document
order), the root included. -/
def domNodes : Dom → List (List Nat × ElemData)
  | .el d cs => ([], d) :: domNodesList 0 cs

/-- Pre-order enumeration of a child list starting at child index `i`. -/
def domNodesList : Nat → List Dom → List (List Nat × ElemData)
  | _, [] => []
  | i, c :: cs =>
      (domNodes c).map (fun q => (i :: q.1, q.2)) ++ domNodesList (i + 1) cs

end

/-- The strict descendants of a subtree's root in pre-order, as matched by
`container.querySelectorAll` (which never matches the container itself). -/
def domDescendants (t : Dom) : List ElemData :=
  ((domNodes t).drop 1).map fun q => q.2

/-- The element reached from `t` by following a path of child indices. -/
def domGet : List Nat → Dom → Option Dom
  | [], t => some t
  | i :: p, .el _ cs =>
      match cs[i]? with
      | some c => domGet p c
      | none => none

/-- The paths of the proper ancestors of path `p`, nearest parent first,
ending at the root (`element.parentElement` chain). -/
def ancestorPaths (p : List Nat) : List (List Nat) :=
  (List.range p.length).map fun k => p.take (p.length - 1 - k)

/-- The multilingual keyword set matched against class names, source URLs and
alt text (`CAPTCHA_PATTERNS.classKeywords`). -/
def classKeywords : List String :=
  ["captcha", "verify", "code", "vcode", "imgcode",
   "checkcode", "seccode", "authcode", "validcode",
   "yzm", "yanzhengma", "验证码"]

/-- `CAPTCHA_PATTERNS.idKeywords` (note `captchaImg`/`codeImg` keep their
source capitalization while the element id is lowercased before matching). -/
def idKeywords : List String :=
  ["captcha", "verify", "code", "vcode", "imgcode",
   "checkcode", "seccode", "authcode", "validcode",
   "yzm", "captchaImg", "codeImg"]

/-- `CAPTCHA_PATTERNS.inputKeywords`. -/
def inputKeywords : List String :=
  ["captcha", "verify", "code", "vcode",
   "checkcode", "seccode", "authcode", "validcode",
   "yzm", "yanzhengma", "验证码"]

/-- `CaptchaDetector.isCaptchaSize`: width in [50, 300] and height in
[20, 100] (`CAPTCHA_PATTERNS.sizeRange`). -/
def isCaptchaSize (w h : Int) : Bool :=
  decide (50 ≤ w) && decide (w ≤ 300) && decide (20 ≤ h) && decide (h ≤ 100)

/-- `CaptchaDetector.isVisible`. -/
def isVisible (e : ElemData) : Bool :=
  !(e.display = "none") && !(e.visibility = "hidden") && !(e.opacity = "0") &&
    decide (0 < e.rect.width) && decide (0 < e.rect.height)

/-- `CaptchaDetector.matchesKeywords`: the lowercased class name contains a
class keyword or the lowercased id contains an id keyword. -/
def matchesKeywords (e : ElemData) : Bool :=
  classKeywords.any (fun k => strIncludes (strLower e.className) k) ||
    idKeywords.any (fun k => strIncludes (strLower e.idAttr) k)

/-- `CaptchaDetector.srcContainsKeywords` (an empty source is falsy). -/
def srcContainsKeywords (src : String) : Bool :=
  if src = "" then false
  else classKeywords.any fun k => strIncludes (strLower src) k

/-- `CaptchaDetector.matchesKeywordsInText` (for `img.alt`; an absent or
empty text is falsy). -/
def matchesKeywordsInText (text : Option String) : Bool :=
  match text with
  | none => false
  | some t =>
      if t = "" then false
      else classKeywords.any fun k => strIncludes (strLower t) k

/-- `CaptchaDetector.parentContainsKeywords`: some ancestor within 3 levels
matches the keywords. -/
def parentContainsKeywords (doc : Dom) (p : List Nat) : Bool :=
  ((ancestorPaths p).take 3).any fun q =>
    match domGet q doc with
    | some t => matchesKeywords (dataOf t)
    | none => false

/-- The selector `input[type="text"], input:not([type])`. -/
def textInputSel (e : ElemData) : Bool :=
  e.tag = "input" && (e.typeAttr = some "text" || e.typeAttr = none)

/-- `CaptchaDetector.isCaptchaInputByName`: name, id, placeholder or class
contains an input keyword (all lowercased). -/
def isCaptchaInputByName (e : ElemData) : Bool :=
  inputKeywords.any fun k =>
    strIncludes (strLower e.nameAttr) k || strIncludes (strLower e.idAttr) k ||
      strIncludes (strLower e.placeholder) k ||
      strIncludes (strLower e.className) k

/-- `CaptchaDetector.findCaptchaInput(container)`: the first text-like input
in the container's subtree whose name/id/placeholder/class matches. -/
def findCaptchaInput (container : Dom) : Option ElemData :=
  ((domDescendants container).filter textInputSel).find? isCaptchaInputByName

/-- All text-like inputs of the document in document order
(`document.querySelectorAll('input[type="text"], input:not([type])')`). -/
def docTextInputs (doc : Dom) : List ElemData :=
  ((domNodes doc).map fun q => q.2).filter textInputSel

/-- `CaptchaDetector.findRelatedInput` of the packaged content script: walk up
to 5 ancestor levels looking for a keyword-matching input in the ancestor's
subtree; otherwise take the first document input positioned immediately right
of the candidate (gap < 150 px, tops within 50 px) or immediately below it
(gap < 100 px, lefts within 100 px). -/
def findRelatedInput (doc : Dom) (p : List Nat) (e : ElemData) :
    Option ElemData :=
  let fromAncestor := ((ancestorPaths p).take 5).findSome? fun q =>
    match domGet q doc with
    | some t => findCaptchaInput t
    | none => none
  match fromAncestor with
  | some i => some i
  | none =>
      let r := e.rect
      (docTextInputs doc).find? fun ie =>
        let ir := ie.rect
        (decide (rectRight r < ir.left) && decide (ir.left - rectRight r < 150)
            && decide (|ir.top - r.top| < 50)) ||
          (decide (rectBottom r < ir.top) &&
            decide (ir.top - rectBottom r < 100) &&
            decide (|ir.left - r.left| < 100))

/-- `CaptchaDetector.hasNearbyInput`. -/
def hasNearbyInput (doc : Dom) (p : List Nat) (e : ElemData) : Bool :=
  (findRelatedInput doc p e).isSome

/-- The `element.src && srcContainsKeywords(element.src)` signal used by
`calculateConfidence` (a missing or empty `src` is falsy). -/
def srcSignal (src : Option String) : Bool :=
  match src with
  | none => false
  | some s => !(s = "") && srcContainsKeywords s

/-- `CaptchaDetector.isLikelyCaptcha(img)`: inside the size envelope, visible,
and at least one of the five acceptance signals fires. -/
def isLikelyCaptcha (doc : Dom) (p : List Nat) (e : ElemData) : Bool :=
  isCaptchaSize e.rect.width e.rect.height && isVisible e &&
    (matchesKeywords e || srcContainsKeywords (e.srcAttr.getD "") ||
      matchesKeywordsInText e.altAttr || parentContainsKeywords doc p ||
      hasNearbyInput doc p e)

/-- `CaptchaDetector.isLikelyCanvasCaptcha` (no src / alt checks). -/
def isLikelyCanvasCaptcha (doc : Dom) (p : List Nat) (e : ElemData) : Bool :=
  isCaptchaSize e.rect.width e.rect.height && isVisible e &&
    (matchesKeywords e || parentContainsKeywords doc p ||
      hasNearbyInput doc p e)

/-- `CaptchaDetector.isLikelySvgCaptcha` (same shape as the canvas test). -/
def isLikelySvgCaptcha (doc : Dom) (p : List Nat) (e : ElemData) : Bool :=
  isCaptchaSize e.rect.width e.rect.height && isVisible e &&
    (matchesKeywords e || parentContainsKeywords doc p ||
      hasNearbyInput doc p e)

/-- `CaptchaDetector.calculateConfidence`: additive score — own class/id
keywords +30, source-URL keywords +20, ancestor keywords within 3 levels +15,
linked input found +25, size inside the envelope +10 — capped at 100. -/
def calculateConfidence (doc : Dom) (p : List Nat) (e : ElemData) : Nat :=
  let score := 0
  let score := score + (if matchesKeywords e then 30 else 0)
  let score := score + (if srcSignal e.srcAttr then 20 else 0)
  let score := score + (if parentContainsKeywords doc p then 15 else 0)
  let score := score + (if (findRelatedInput doc p e).isSome then 25 else 0)
  let score := score +
    (if isCaptchaSize e.rect.width e.rect.height then 10 else 0)
  min score 100

/-- The confidence formula as the specification words it: the sum of exactly
the fixed weights of the independently firing signals, capped at 100. -/
def specSignalScore (doc : Dom) (p : List Nat) (e : ElemData) : Nat :=
  min ((if matchesKeywords e then 30 else 0) +
    (if srcSignal e.srcAttr then 20 else 0) +
    (if parentContainsKeywords doc p then 15 else 0) +
    (if (findRelatedInput doc p e).isSome then 25 else 0) +
    (if isCaptchaSize e.rect.width e.rect.height then 10 else 0)) 100

/-- A detected candidate as pushed by `scan` (DOM references are represented
by the element's path and its scan-time data snapshot). -/
structure Candidate where
  ctype : String
  path : List Nat
  data : ElemData
  confidence : Nat
  inputElement : Option ElemData
  cid : String
deriving Repr, DecidableEq

/-- `CaptchaDetector.scanImages`: every `img` of the document, indexed by its
position among all imgs, kept when `isLikelyCaptcha` accepts it. -/
def scanImages (doc : Dom) : List Candidate :=
  (((domNodes doc).filter fun q => q.2.tag = "img").enum).filterMap fun iq =>
    if isLikelyCaptcha doc iq.2.1 iq.2.2 then
      some { ctype := "image", path := iq.2.1, data := iq.2.2,
             confidence := calculateConfidence doc iq.2.1 iq.2.2,
             inputElement := findRelatedInput doc iq.2.1 iq.2.2,
             cid := "captcha-" ++ toString iq.1 }
    else none

/-- `CaptchaDetector.scanCanvas`. -/
def scanCanvas (doc : Dom) : List Candidate :=
  (((domNodes doc).filter fun q => q.2.tag = "canvas").enum).filterMap fun iq =>
    if isLikelyCanvasCaptcha doc iq.2.1 iq.2.2 then
      some { ctype := "canvas", path := iq.2.1, data := iq.2.2,
             confidence := calculateConfidence doc iq.2.1 iq.2.2,
             inputElement := findRelatedInput doc iq.2.1 iq.2.2,
             cid := "captcha-canvas-" ++ toString iq.1 }
    else none

/-- `CaptchaDetector.scanSvg`. -/
def scanSvg (doc : Dom) : List Candidate :=
  (((domNodes doc).filter fun q => q.2.tag = "svg").enum).filterMap fun iq =>
    if isLikelySvgCaptcha doc iq.2.1 iq.2.2 then
      some { ctype := "svg", path := iq.2.1, data := iq.2.2,
             confidence := calculateConfidence doc iq.2.1 iq.2.2,
             inputElement := findRelatedInput doc iq.2.1 iq.2.2,
             cid := "captcha-svg-" ++ toString iq.1 }
    else none

/-- `CaptchaDetector.scan`: reset the candidate list, then scan imgs, canvases
and svgs in that order. -/
def scanDoc (doc : Dom) : List Candidate :=
  scanImages doc ++ scanCanvas doc ++ scanSvg doc

/-- The body of `reduce((best, current) => current.confidence >
best.confidence ? current : best)`, folded from the first element. -/
def reduceBest (x : Candidate) (xs : List Candidate) : Candidate :=
  xs.foldl
    (fun best cur => if best.confidence < cur.confidence then cur else best) x

/-- `CaptchaDetector.getMostLikelyCaptcha`: `null` on an empty list, else the
strict-greater-than reduction over the detected candidates. -/
def getMostLikelyCaptcha (l : List Candidate) : Option Candidate :=
  match l with
  | [] => none
  | x :: xs => some (reduceBest x xs)

/-! ### Raster-image Capture Strategy (`CaptchaDetector.captureImgElement` /
`waitForImageLoad`, content.js lines 279-378).

The platform state of the `<img>` element is captured in `ImgState`:
its loading flags, its source URL, what its load/error events would do within
the 5-second bound, and how `canvas.toDataURL('image/png')` behaves after
drawing it (a cross-origin-tainted canvas throws).  Network activity is
recorded in a trace: drawing the already-rendered element onto an offscreen
canvas performs none, while creating a fresh `Image` and assigning its `src`
(which this capture path never does) would record a request. -/

/-- What happens to a still-loading image within the 5000 ms bound. -/
inductive LoadOutcome where
  | fires
  | failsErr
  | timesOut
deriving Repr, DecidableEq

/-- A network request for a URL. -/
inductive NetEv where
  | request (url : String)
deriving Repr, DecidableEq

/-- Platform state of the img element and of PNG serialization. -/
structure ImgState where
  complete : Bool
  naturalWidth : Nat
  naturalHeight : Nat
  renderWidth : Nat
  renderHeight : Nat
  src : String
  loadOutcome : LoadOutcome
  taintedSerialize : Bool
  serializedPng : String
deriving Repr, DecidableEq

/-- The bound of `waitForImageLoad`'s wait, in milliseconds. -/
def waitTimeoutMillis : Nat := 5000

/-- `CaptchaDetector.waitForImageLoad(img)`: resolve at once when the image is
already complete with pixels, or when the source is an inline data URI;
otherwise subscribe to load/error (re-checking completeness after
subscribing) and reject after `waitTimeoutMillis` ms. -/
def waitForImageLoad (m : ImgState) : Except String Unit :=
  if m.complete && decide (0 < m.naturalWidth) then .ok ()
  else if !(m.src = "") && strStarts m.src "data:" then .ok ()
  else
    match m.loadOutcome with
    | .fires => .ok ()
    | .failsErr => .error "图片加载失败"
    | .timesOut => .error "图片加载超时"

/-- The cross-origin failure message of the raster capture path. -/
def crossOriginCaptureMsg : String := "无法捕获跨域图片，请尝试手动截图"

/-- `const width = img.naturalWidth || img.width`. -/
def effectiveWidth (m : ImgState) : Nat :=
  if m.naturalWidth = 0 then m.renderWidth else m.naturalWidth

/-- `const height = img.naturalHeight || img.height`. -/
def effectiveHeight (m : ImgState) : Nat :=
  if m.naturalHeight = 0 then m.renderHeight else m.naturalHeight

/-- `CaptchaDetector.captureImgElement(img)` of the packaged content script:
wait for the already-loading or cached image, draw the rendered element at
natural resolution (`naturalWidth || width`) onto an offscreen canvas and
serialize to PNG; when serialization throws (cross-origin taint) or yields the
blank marker `data:,`, fall back to the original source if it is an inline
data URI, and otherwise (the element-screenshot retry draws the same tainted
bitmap again) reject with the descriptive cross-origin error.  Returns the
network requests issued and the result. -/
def captureImgElement (m : ImgState) : List NetEv × Except String String :=
  match waitForImageLoad m with
  | .error e => ([], .error e)
  | .ok _ =>
      if effectiveWidth m = 0 || effectiveHeight m = 0 then
        ([], .error "图片尺寸为0，可能未加载完成")
      else if !m.taintedSerialize && !(m.serializedPng = "data:,") then
        ([], .ok m.serializedPng)
      else if strStarts m.src "data:" then
        ([], .ok m.src)
      else
        ([], .error crossOriginCaptureMsg)

/-! ### Specification-side comparison definitions and concrete scenarios -/

/-- The result `mostLikely()` is specified to produce: the first candidate in
scan order whose confidence is maximal (`none` on an empty scan). -/
def firstMax (l : List Candidate) : Option Candidate :=
  l.find? fun c => l.all fun c2 => decide (c2.confidence ≤ c.confidence)

/-- The `<input name="vcode">` of the §8 scenario, 10 px right of the image. -/
def vcodeInput : ElemData :=
  { tag := "input", nameAttr := "vcode", typeAttr := some "text",
    rect := { left := 230, top := 100, width := 140, height := 30 } }

/-- The 120×40 px `<img id="captchaImg" src="https://example.com/cap.png">`
of the §8 scenario. -/
def captchaImgElem : ElemData :=
  { tag := "img", idAttr := "captchaImg",
    srcAttr := some "https://example.com/cap.png", altAttr := some "",
    rect := { left := 100, top := 100, width := 120, height := 40 } }

/-- The §8 scenario document: the image and the text input side by side in the
body. -/
def scenarioDoc : Dom :=
  .el { tag := "html" }
    [.el { tag := "body" } [.el captchaImgElem [], .el vcodeInput []]]

/-- The candidate `scan` produces for the §8 scenario document. -/
def scenarioCandidate : Candidate :=
  { ctype := "image", path := [0, 0], data := captchaImgElem,
    confidence := 65, inputElement := some vcodeInput, cid := "captcha-0" }

/-- A document whose only scannable element is outside the size envelope but
saturated with CAPTCHA keywords (witness document for the size-envelope
property). -/
def oversizedDoc : Dom :=
  .el { tag := "html" }
    [.el { tag := "body" }
      [.el { tag := "img", idAttr := "captcha", className := "captcha",
             srcAttr := some "https://example.com/captcha.png",
             altAttr := some "captcha",
             rect := { left := 0, top := 0, width := 800, height := 600 } } []]]

/-- Total wall-clock time of a three-attempt dispatch: the three attempt
durations plus the 1000 ms and 2000 ms backoff delays. -/
def threeAttemptElapsed (env : DispatchEnv) : Nat :=
  env.attemptDuration 0 + 1000 + env.attemptDuration 1 + 2000 +
    env.attemptDuration 2

/-! ### Helper lemmas -/

/-- A retry loop that still has iterations to run never exits with the
initial `null` last-error. -/
theorem retryLoop_shape (env : DispatchEnv) :
    ∀ remaining attempt clock le, 1 ≤ remaining →
      (∃ p, (retryLoop env remaining attempt clock le).result = .ok p) ∨
      (∃ e, (retryLoop env remaining attempt clock le).result =
        .error (some e)) := by
  intro remaining
  induction remaining with
  | zero => intro a c le h; exact absurd h (by omega)
  | succ r ih =>
      intro a c le _
      cases hres : env.attemptResult a with
      | ok t =>
          left
          exact ⟨(t, a + 1), by simp [retryLoop, hres]⟩
      | error e =>
          by_cases hr : r = 0
          · subst hr
            right
            exact ⟨e, by simp [retryLoop, hres]⟩
          · have h1 : 1 ≤ r := by omega
            rcases ih (a + 1) (c + env.attemptDuration a + 1000 * (a + 1))
                (some e) h1 with ⟨p, hp⟩ | ⟨e2, he2⟩
            · left
              exact ⟨p, by simp [retryLoop, hres, hr, hp]⟩
            · right
              exact ⟨e2, by simp [retryLoop, hres, hr, he2]⟩

/-- Looking up a key just written to the adapter cache. -/
theorem cacheGet_set_self (m : AdapterCache) (k : String) (v : AdapterState) :
    cacheGet (cacheSet m k v) k = some v := by
  induction m with
  | nil => simp [cacheSet, cacheGet]
  | cons p t ih =>
      by_cases h : p.1 = k
      · simp [cacheSet, h, cacheGet]
      · simpa [cacheSet, h, cacheGet] using ih

/-- Deleting a key from the adapter cache removes it. -/
theorem cacheGet_delete_self (m : AdapterCache) (k : String) :
    cacheGet (cacheDelete m k) k = none := by
  induction m with
  | nil => simp [cacheDelete, cacheGet]
  | cons p t ih =>
      by_cases h : p.1 = k
      · simp only [cacheDelete, List.filter_cons] at ih ⊢
        simp [h, ih]
      · simp only [cacheDelete, List.filter_cons] at ih ⊢
        have hd : (!decide (p.1 = k)) = true := by simpa using h
        rw [hd, if_pos rfl, cacheGet,
          List.find?_cons_of_neg _ (by simpa using h)]
        exact ih

/-- Looking up a key just assigned on a header object. -/
theorem objGet_set_self (h : List (String × String)) (k v : String) :
    objGet (objSet h k v) k = some v := by
  induction h with
  | nil => simp [objSet, objGet]
  | cons p t ih =>
      by_cases hp : p.1 = k
      · simp [objSet, hp, objGet]
      · simpa [objSet, hp, objGet] using ih

/-- Assigning one key leaves every other key unchanged. -/
theorem objGet_set_other (h : List (String × String)) (k v k2 : String)
    (hne : ¬k2 = k) : objGet (objSet h k v) k2 = objGet h k2 := by
  have hkk2 : ¬k = k2 := fun hh => hne hh.symm
  induction h with
  | nil => simp [objSet, objGet, hkk2]
  | cons p t ih =>
      by_cases hp : p.1 = k
      · have e1 : objSet (p :: t) k v = (k, v) :: t := by simp [objSet, hp]
        have hpk2 : ¬p.1 = k2 := by rw [hp]; exact hkk2
        rw [e1]
        unfold objGet
        rw [List.find?_cons_of_neg _ (by simpa using hkk2),
          List.find?_cons_of_neg _ (by simpa using hpk2)]
      · have e1 : objSet (p :: t) k v = p :: objSet t k v := by simp [objSet, hp]
        rw [e1]
        by_cases hp2 : p.1 = k2
        · unfold objGet
          rw [List.find?_cons_of_pos _ (by simpa using hp2),
            List.find?_cons_of_pos _ (by simpa using hp2)]
        · unfold objGet
          rw [List.find?_cons_of_neg _ (by simpa using hp2),
            List.find?_cons_of_neg _ (by simpa using hp2)]
          exact ih

/-- `Object.assign(h, custom)` leaves, under each key, the last value
`custom` assigns to it, and the original value where `custom` never touches
the key. -/
theorem objGet_assign (custom : List (String × String)) :
    ∀ h k, objGet (objAssign h custom) k =
      match lastAssigned custom k with
      | some v => some v
      | none => objGet h k := by
  induction custom with
  | nil => intro h k; simp [objAssign, lastAssigned]
  | cons p t ih =>
      intro h k
      have step : objAssign h (p :: t) = objAssign (objSet h p.1 p.2) t := by
        simp [objAssign]
      rw [step, ih]
      cases hf : List.find? (fun q => q.1 = k) t.reverse with
      | some q =>
          have hl : lastAssigned t k = some q.2 := by
            simp [lastAssigned, hf]
          have hl2 : lastAssigned (p :: t) k = some q.2 := by
            simp [lastAssigned, List.find?_append, hf]
          rw [hl, hl2]
      | none =>
          have hl : lastAssigned t k = none := by
            simp [lastAssigned, hf]
          rw [hl]
          by_cases hp : p.1 = k
          · have hl2 : lastAssigned (p :: t) k = some p.2 := by
              simp [lastAssigned, List.find?_append, hf, hp]
            rw [hl2, ← hp, objGet_set_self]
          · have hl2 : lastAssigned (p :: t) k = none := by
              simp [lastAssigned, List.find?_append, hf, hp]
            rw [hl2, objGet_set_other]
            intro hk
            exact hp hk.symm

/-! ### Claim theorems -/

/-- C1: with an active configuration and an effective `retryCount` of 3,
an always-failing adapter yields exactly 3 strictly sequential attempts
separated by delays of 1000 ms then 2000 ms, a failure outcome carrying the
last error, and exactly one stats update plus one history record (the whole
event trace is pinned); an adapter failing twice then succeeding yields those
same 3 attempts and delays, a success outcome reporting `attempt = 3`, and
again exactly one stats update plus one history record. -/
theorem claim_C1_dispatcher_retry (env : DispatchEnv)
    (hcfg : env.hasActiveConfig = true)
    (hrc : jsOrNat env.optRetryCount env.settingsRetryCount = 3) :
    (∀ e0 e1 e2,
      env.attemptResult 0 = .error e0 →
      env.attemptResult 1 = .error e1 →
      env.attemptResult 2 = .error e2 →
      (dispatchRecognize env).events =
        [.attemptStart 0, .delayMs 1000, .attemptStart 1, .delayMs 2000,
          .attemptStart 2, .statsUpdate false (threeAttemptElapsed env),
          .historyAdd false e2] ∧
      (dispatchRecognize env).outcome =
        .ok { success := false, text := none, error := some e2,
              elapsed := threeAttemptElapsed env, attempt := none }) ∧
    (∀ e0 e1 t,
      env.attemptResult 0 = .error e0 →
      env.attemptResult 1 = .error e1 →
      env.attemptResult 2 = .ok t →
      (dispatchRecognize env).events =
        [.attemptStart 0, .delayMs 1000, .attemptStart 1, .delayMs 2000,
          .attemptStart 2, .statsUpdate true (threeAttemptElapsed env),
          .historyAdd true t] ∧
      (dispatchRecognize env).outcome =
        .ok { success := true, text := some t, error := none,
              elapsed := threeAttemptElapsed env, attempt := some 3 }) := by
  constructor
  · intro e0 e1 e2 h0 h1 h2
    constructor <;>
      simp only [dispatchRecognize, hcfg, hrc, if_true] <;>
      simp [retryLoop, h0, h1, h2, threeAttemptElapsed]
  · intro e0 e1 t h0 h1 h2
    constructor <;>
      simp only [dispatchRecognize, hcfg, hrc, if_true] <;>
      simp [retryLoop, h0, h1, h2, threeAttemptElapsed]

/-- Witness for C1 at a concrete environment: three attempts of 7 ms each,
always failing with "boom". -/
theorem claim_C1_dispatcher_retry_witness :
    (dispatchRecognize
      { hasActiveConfig := true, configName := "cfg", settingsRetryCount := 3,
        optRetryCount := none, attemptResult := fun _ => .error "boom",
        attemptDuration := fun _ => 7 }).events =
      [.attemptStart 0, .delayMs 1000, .attemptStart 1, .delayMs 2000,
        .attemptStart 2, .statsUpdate false 3021, .historyAdd false "boom"] ∧
    (dispatchRecognize
      { hasActiveConfig := true, configName := "cfg", settingsRetryCount := 3,
        optRetryCount := none, attemptResult := fun _ => .error "boom",
        attemptDuration := fun _ => 7 }).outcome =
      .ok { success := false, text := none, error := some "boom",
            elapsed := 3021, attempt := none } :=
  (claim_C1_dispatcher_retry
    { hasActiveConfig := true, configName := "cfg", settingsRetryCount := 3,
      optRetryCount := none, attemptResult := fun _ => .error "boom",
      attemptDuration := fun _ => 7 } rfl rfl).1 "boom" "boom" "boom"
    rfl rfl rfl

/-- C2 counterexample: with an active configuration but an effective retry
count of 0 (`settings.retryCount = 0` and no caller override), the retry loop
never runs, `lastError` is still `null`, and the failure handler itself
throws a TypeError reading `error.message` — so `recognize` does throw to its
caller rather than returning a structured outcome. -/
theorem claim_C2_counterexample :
    (dispatchRecognize
      { hasActiveConfig := true, configName := "cfg", settingsRetryCount := 0,
        optRetryCount := none,
        attemptResult := fun _ => .error "unused",
        attemptDuration := fun _ => 0 }).outcome =
      .error nullMessageTypeError := by
  simp [dispatchRecognize, jsOrNat, retryLoop]

/-- C2 (amended): whenever the effective retry count
(`options.retryCount || settings.retryCount`) is at least 1, `recognize`
never throws: it always returns a structured outcome which on failure carries
`success = false` and an error message (the elapsed time is a field of every
outcome); and with no active configuration it fails immediately — before any
adapter attempt — with the not-configured message. -/
theorem claim_C2_never_throws (env : DispatchEnv)
    (hpos : env.hasActiveConfig = true →
      1 ≤ jsOrNat env.optRetryCount env.settingsRetryCount) :
    (∃ o, (dispatchRecognize env).outcome = .ok o ∧
      ((o.success = true ∧ o.text.isSome = true) ∨
        (o.success = false ∧ o.error.isSome = true))) ∧
    (env.hasActiveConfig = false →
      (dispatchRecognize env).outcome =
        .ok { success := false, text := none, error := some notConfiguredMsg,
              elapsed := 0, attempt := none } ∧
      countAttempts (dispatchRecognize env).events = 0) := by
  by_cases hac : env.hasActiveConfig = true
  · constructor
    · rcases retryLoop_shape env
          (jsOrNat env.optRetryCount env.settingsRetryCount) 0 0 none
          (hpos hac) with ⟨⟨t, att⟩, hp⟩ | ⟨e, he⟩
      · have hout : (dispatchRecognize env).outcome = .ok { success := true, text := some t, error := none, elapsed := (retryLoop env (jsOrNat env.optRetryCount env.settingsRetryCount) 0 0 none).clock, attempt := some att } := by
          simp only [dispatchRecognize, hac, if_true]
          rw [hp]
        exact ⟨_, hout, by left; simp⟩
      · have hout : (dispatchRecognize env).outcome = .ok { success := false, text := none, error := some e, elapsed := (retryLoop env (jsOrNat env.optRetryCount env.settingsRetryCount) 0 0 none).clock, attempt := none } := by
          simp only [dispatchRecognize, hac, if_true]
          rw [he]
        exact ⟨_, hout, by right; simp⟩
    · intro hfalse
      rw [hac] at hfalse
      exact absurd hfalse (by simp)
  · have hf : env.hasActiveConfig = false := by
      simpa using hac
    constructor
    · have hout : (dispatchRecognize env).outcome = .ok { success := false, text := none, error := some notConfiguredMsg, elapsed := 0, attempt := none } := by
        simp [dispatchRecognize, hf]
      exact ⟨_, hout, by right; simp⟩
    · intro _
      constructor
      · simp [dispatchRecognize, hf]
      · simp [dispatchRecognize, hf, countAttempts]

/-- Witness for C2 (amended) at a concrete environment with no active
configuration. -/
theorem claim_C2_never_throws_witness :
    (∃ o, (dispatchRecognize
      { hasActiveConfig := false, configName := "", settingsRetryCount := 3,
        optRetryCount := none,
        attemptResult := fun _ => .error "unused",
        attemptDuration := fun _ => 0 }).outcome = .ok o ∧
      ((o.success = true ∧ o.text.isSome = true) ∨
        (o.success = false ∧ o.error.isSome = true))) ∧
    ((false : Bool) = false →
      (dispatchRecognize
        { hasActiveConfig := false, configName := "", settingsRetryCount := 3,
          optRetryCount := none,
          attemptResult := fun _ => .error "unused",
          attemptDuration := fun _ => 0 }).outcome =
        .ok { success := false, text := none, error := some notConfiguredMsg,
              elapsed := 0, attempt := none } ∧
      countAttempts (dispatchRecognize
        { hasActiveConfig := false, configName := "", settingsRetryCount := 3,
          optRetryCount := none,
          attemptResult := fun _ => .error "unused",
          attemptDuration := fun _ => 0 }).events = 0) :=
  claim_C2_never_throws _ (fun h => by simp at h)

/-- C10: once an adapter is cached under `config.id || config.type`, any later
`getAdapter` call whose config resolves to the same key returns the cached
instance unchanged and ignores the new config's contents (the adapter keeps
the settings of the config it was built from), until `updateAdapter` deletes
and rebuilds the entry from the new config. -/
theorem claim_C10_adapter_cache (m : AdapterCache) (c c2 nc : ApiConfig)
    (hkey : adapterKey c2 = adapterKey c)
    (hmiss : cacheGet m (adapterKey c) = none)
    (hne : ¬adapterKey c = "") :
    (getAdapter m c).2 = buildAdapter c ∧
    getAdapter (getAdapter m c).1 c2 = ((getAdapter m c).1, buildAdapter c) ∧
    cacheGet (updateAdapter (getAdapter m c).1 (adapterKey c) nc)
        (adapterKey c) =
      some (buildAdapter { nc with id := some (adapterKey c) }) := by
  have h1 : getAdapter m c = (cacheSet m (adapterKey c) (buildAdapter c),
      buildAdapter c) := by
    simp [getAdapter, hmiss]
  have hhit : cacheGet (cacheSet m (adapterKey c) (buildAdapter c))
      (adapterKey c) = some (buildAdapter c) := cacheGet_set_self _ _ _
  refine ⟨by rw [h1], ?_, ?_⟩
  · rw [h1]
    simp only [getAdapter, hkey, hhit]
  · rw [h1]
    have hkeynew : adapterKey { nc with id := some (adapterKey c) } =
        adapterKey c := by
      generalize hK : adapterKey c = K at hne ⊢
      simp [adapterKey, hne]
    simp only [updateAdapter, hhit, Option.isSome_some, if_true]
    have hdel : cacheGet (cacheDelete
        (cacheSet m (adapterKey c) (buildAdapter c)) (adapterKey c))
        (adapterKey c) = none := cacheGet_delete_self _ _
    simp only [getAdapter, hkeynew, hdel]
    exact cacheGet_set_self _ _ _

/-- Witness for C10: an OpenAI-compatible config cached under id "cfg-1",
then looked up with a changed model and rebuilt via `updateAdapter`. -/
theorem claim_C10_adapter_cache_witness :
    (getAdapter [] { id := some "cfg-1", cfgType := "openai_compatible", model := some "gpt-4o" }).2 = buildAdapter { id := some "cfg-1", cfgType := "openai_compatible", model := some "gpt-4o" } ∧
    getAdapter (getAdapter [] { id := some "cfg-1", cfgType := "openai_compatible", model := some "gpt-4o" }).1 { id := some "cfg-1", cfgType := "openai_compatible", model := some "gpt-5" } = ((getAdapter [] { id := some "cfg-1", cfgType := "openai_compatible", model := some "gpt-4o" }).1, buildAdapter { id := some "cfg-1", cfgType := "openai_compatible", model := some "gpt-4o" }) ∧
    cacheGet (updateAdapter (getAdapter [] { id := some "cfg-1", cfgType := "openai_compatible", model := some "gpt-4o" }).1 (adapterKey { id := some "cfg-1", cfgType := "openai_compatible", model := some "gpt-4o" }) { id := some "cfg-1", cfgType := "openai_compatible", model := some "gpt-5" }) (adapterKey { id := some "cfg-1", cfgType := "openai_compatible", model := some "gpt-4o" }) = some (buildAdapter { ({ id := some "cfg-1", cfgType := "openai_compatible", model := some "gpt-5" } : ApiConfig) with id := some (adapterKey { id := some "cfg-1", cfgType := "openai_compatible", model := some "gpt-4o" }) }) :=
  claim_C10_adapter_cache [] _ _ _ rfl rfl (by decide)

/-- C8 counterexample: the Gemini adapter never merges caller-supplied custom
headers — its `recognize` request carries the fixed Content-Type header only,
so a custom `Content-Type: text/plain` (a key collision) does not take
precedence, contradicting the claim for one of the three adapters. -/
theorem claim_C8_counterexample :
    (mkGeminiAdapter { cfgType := "gemini", customHeaders := some [("Content-Type", "text/plain")] }).customHeaders = some [("Content-Type", "text/plain")] ∧
    objGet (geminiRecognizeHeaders (mkGeminiAdapter { cfgType := "gemini", customHeaders := some [("Content-Type", "text/plain")] })) "Content-Type" = some "application/json" ∧
    ¬("application/json" = "text/plain") := by
  refine ⟨rfl, rfl, by decide⟩

/-- C8 (amended): in the OpenAI-compatible and Claude adapters,
caller-supplied custom headers are applied after the built-in auth headers,
so on any key the last custom value takes precedence; the Gemini adapter,
however, ignores `customHeaders` entirely — its recognize request always
carries exactly the fixed Content-Type header (its key travels in the URL). -/
theorem claim_C8_custom_headers (a : AdapterState)
    (ch : List (String × String)) (k v : String)
    (hch : a.customHeaders = some ch)
    (hlast : lastAssigned ch k = some v) :
    objGet (buildHeadersOpenAI a) k = some v ∧
    objGet (buildHeadersClaude a) k = some v ∧
    geminiRecognizeHeaders a = [("Content-Type", "application/json")] := by
  refine ⟨?_, ?_, rfl⟩
  · simp only [buildHeadersOpenAI, hch]
    rw [objGet_assign, hlast]
  · simp only [buildHeadersClaude, hch]
    rw [objGet_assign, hlast]

/-- Witness for C8 (amended): a custom Authorization header colliding with
the built-in bearer header wins in both adapters. -/
theorem claim_C8_custom_headers_witness :
    objGet (buildHeadersOpenAI { kind := .openaiCompatible, baseUrl := "https://api.example.com/v1", model := "gpt-4o", maxTokens := some 100, temperature := some (1 / 10), apiKey := some "sk-test", customHeaders := some [("Authorization", "custom-token")] }) "Authorization" = some "custom-token" ∧
    objGet (buildHeadersClaude { kind := .claude, baseUrl := "https://api.example.com", model := "claude-3-5-sonnet", maxTokens := some 1024, temperature := none, apiKey := some "sk-test", customHeaders := some [("Authorization", "custom-token")] }) "Authorization" = some "custom-token" ∧
    geminiRecognizeHeaders { kind := .gemini, baseUrl := "https://generativelanguage.googleapis.com/v1beta", model := "gemini-1.5-flash", maxTokens := none, temperature := none, apiKey := some "sk-test", customHeaders := some [("Authorization", "custom-token")] } = [("Content-Type", "application/json")] := by
  refine ⟨?_, ?_, ?_⟩
  · exact (claim_C8_custom_headers { kind := .openaiCompatible, baseUrl := "https://api.example.com/v1", model := "gpt-4o", maxTokens := some 100, temperature := some (1 / 10), apiKey := some "sk-test", customHeaders := some [("Authorization", "custom-token")] } [("Authorization", "custom-token")] "Authorization" "custom-token" rfl rfl).1
  · exact (claim_C8_custom_headers { kind := .claude, baseUrl := "https://api.example.com", model := "claude-3-5-sonnet", maxTokens := some 1024, temperature := none, apiKey := some "sk-test", customHeaders := some [("Authorization", "custom-token")] } [("Authorization", "custom-token")] "Authorization" "custom-token" rfl rfl).2.1
  · exact (claim_C8_custom_headers { kind := .gemini, baseUrl := "https://generativelanguage.googleapis.com/v1beta", model := "gemini-1.5-flash", maxTokens := none, temperature := none, apiKey := some "sk-test", customHeaders := some [("Authorization", "custom-token")] } [("Authorization", "custom-token")] "Authorization" "custom-token" rfl rfl).2.2

/-- The events of the typing loop are the per-character blocks in character
order. -/
theorem typeChars_events (rand : Nat → ℚ) :
    ∀ cs i v, (typeChars rand i v cs).1 =
      ((List.enumFrom i cs).map (typeBlock rand)).flatten := by
  intro cs
  induction cs with
  | nil => intro i v; simp [typeChars]
  | cons c cs ih =>
      intro i v
      simp [typeChars, typeBlock, List.enumFrom_cons, ih]

/-- The typing loop appends exactly the typed characters to the input's
value. -/
theorem typeChars_value (rand : Nat → ℚ) :
    ∀ cs i v, (typeChars rand i v cs).2.data = v.data ++ cs := by
  intro cs
  induction cs with
  | nil => intro i v; simp [typeChars]
  | cons c cs ih =>
      intro i v
      simp [typeChars, ih, String.data_push]

/-- The keydown events of the typing blocks are the characters in order. -/
theorem keydownChars_blocks (rand : Nat → ℚ) :
    ∀ (cs : List Char) (i : Nat),
      keydownChars (((List.enumFrom i cs).map (typeBlock rand)).flatten) =
        cs := by
  intro cs
  induction cs with
  | nil => intro i; simp [keydownChars]
  | cons c cs ih =>
      intro i
      simp [List.enumFrom_cons, keydownChars, typeBlock,
        List.filterMap_append] at ih ⊢
      exact ih (i + 1)

/-- The keyup events of the typing blocks are the characters in order. -/
theorem keyupChars_blocks (rand : Nat → ℚ) :
    ∀ (cs : List Char) (i : Nat),
      keyupChars (((List.enumFrom i cs).map (typeBlock rand)).flatten) =
        cs := by
  intro cs
  induction cs with
  | nil => intro i; simp [keyupChars]
  | cons c cs ih =>
      intro i
      simp [List.enumFrom_cons, keyupChars, typeBlock,
        List.filterMap_append] at ih ⊢
      exact ih (i + 1)

/-- The typing blocks contain no change events. -/
theorem countChange_blocks (rand : Nat → ℚ) :
    ∀ (cs : List Char) (i : Nat),
      countChange (((List.enumFrom i cs).map (typeBlock rand)).flatten) =
        0 := by
  intro cs
  induction cs with
  | nil => intro i; simp [countChange]
  | cons c cs ih =>
      intro i
      simp [List.enumFrom_cons, countChange, typeBlock,
        List.countP_append] at ih ⊢
      exact ih (i + 1)

/-- The typing blocks contain no blur events. -/
theorem countBlur_blocks (rand : Nat → ℚ) :
    ∀ (cs : List Char) (i : Nat),
      countBlur (((List.enumFrom i cs).map (typeBlock rand)).flatten) = 0 := by
  intro cs
  induction cs with
  | nil => intro i; simp [countBlur]
  | cons c cs ih =>
      intro i
      simp [List.enumFrom_cons, countBlur, typeBlock,
        List.countP_append] at ih ⊢
      exact ih (i + 1)

/-- The delays of the typing blocks are `50 + rand i * 100` per character
index. -/
theorem delayVals_blocks (rand : Nat → ℚ) :
    ∀ (cs : List Char) (i : Nat),
      delayVals (((List.enumFrom i cs).map (typeBlock rand)).flatten) =
        (List.enumFrom i cs).map (fun p => 50 + rand p.1 * 100) := by
  intro cs
  induction cs with
  | nil => intro i; simp [delayVals]
  | cons c cs ih =>
      intro i
      simp [List.enumFrom_cons, delayVals, typeBlock,
        List.filterMap_append] at ih ⊢
      exact ih (i + 1)

/-- C9: `fill` with keystroke simulation on a text of n characters emits,
after the focus and the clearing input event, exactly the n per-character
blocks — key-down, input-changed, key-up, then a randomized delay — in
character order, followed by exactly one change and one blur event; the
input's final value is the text, the call returns true, and with
`Math.random()` ranging over [0, 1) every delay lies in [50, 150) ms. -/
theorem claim_C9_fill_simulate (rand : Nat → ℚ) (text : String)
    (hr : ∀ i, 0 ≤ rand i ∧ rand i < 1) :
    (fillSimulate rand text).1 =
      [.focus, .inputEv] ++ ((text.data.enum.map (typeBlock rand)).flatten) ++
        [.changeEv, .blurEv] ∧
    (fillSimulate rand text).2.1 = text ∧
    (fillSimulate rand text).2.2 = true ∧
    keydownChars (fillSimulate rand text).1 = text.data ∧
    keyupChars (fillSimulate rand text).1 = text.data ∧
    countChange (fillSimulate rand text).1 = 1 ∧
    countBlur (fillSimulate rand text).1 = 1 ∧
    (delayVals (fillSimulate rand text).1).all
      (fun d => decide (50 ≤ d) && decide (d < 150)) = true := by
  have hev : (fillSimulate rand text).1 =
      [.focus, .inputEv] ++
        ((text.data.enum.map (typeBlock rand)).flatten) ++
        [.changeEv, .blurEv] := by
    simp [fillSimulate, simulateTyping, typeChars_events, List.enum]
  refine ⟨hev, ?_, rfl, ?_, ?_, ?_, ?_, ?_⟩
  · apply String.ext
    simpa [fillSimulate, simulateTyping] using typeChars_value rand text.data 0 ""
  · rw [hev]
    simp [keydownChars, List.filterMap_append, List.enum]
    simpa [keydownChars] using keydownChars_blocks rand text.data 0
  · rw [hev]
    simp [keyupChars, List.filterMap_append, List.enum]
    simpa [keyupChars] using keyupChars_blocks rand text.data 0
  · rw [hev]
    simp [countChange, List.countP_append, List.enum]
    simpa [countChange] using countChange_blocks rand text.data 0
  · rw [hev]
    simp [countBlur, List.countP_append, List.enum]
    simpa [countBlur] using countBlur_blocks rand text.data 0
  · rw [hev]
    have hd : delayVals (fillSimulate rand text).1 =
        (List.enumFrom 0 text.data).map (fun p => 50 + rand p.1 * 100) := by
      rw [hev]
      simp [delayVals, List.filterMap_append, List.enum]
      simpa [delayVals] using delayVals_blocks rand text.data 0
    rw [← hev, hd]
    rw [List.all_eq_true]
    intro d hd2
    rcases List.mem_map.mp hd2 with ⟨p, _, hp⟩
    rcases hr p.1 with ⟨h0, h1⟩
    have hle : (50 : ℚ) ≤ 50 + rand p.1 * 100 := by nlinarith
    have hlt : 50 + rand p.1 * 100 < (150 : ℚ) := by nlinarith
    subst hp
    simp [hle, hlt]

/-- Witness for C9 at text "AB3x" and `Math.random()` constantly 1/2. -/
theorem claim_C9_fill_simulate_witness :
    (fillSimulate (fun _ => (1 : ℚ) / 2) "AB3x").2.1 = "AB3x" ∧
    keydownChars (fillSimulate (fun _ => (1 : ℚ) / 2) "AB3x").1 =
      "AB3x".data ∧
    keyupChars (fillSimulate (fun _ => (1 : ℚ) / 2) "AB3x").1 = "AB3x".data ∧
    countChange (fillSimulate (fun _ => (1 : ℚ) / 2) "AB3x").1 = 1 ∧
    countBlur (fillSimulate (fun _ => (1 : ℚ) / 2) "AB3x").1 = 1 ∧
    (delayVals (fillSimulate (fun _ => (1 : ℚ) / 2) "AB3x").1).all
      (fun d => decide (50 ≤ d) && decide (d < 150)) = true := by
  have h := claim_C9_fill_simulate (fun _ => (1 : ℚ) / 2) "AB3x"
    (fun i => by norm_num)
  exact ⟨h.2.1, h.2.2.2.1, h.2.2.2.2.1, h.2.2.2.2.2.1, h.2.2.2.2.2.2.1,
    h.2.2.2.2.2.2.2⟩

/-- Every candidate `scan` pushes carries the confidence and linked input
computed from its element, and its element passed the size-envelope check. -/
theorem scanDoc_mem (doc : Dom) (c : Candidate) (h : c ∈ scanDoc doc) :
    c.confidence = calculateConfidence doc c.path c.data ∧
    c.inputElement = findRelatedInput doc c.path c.data ∧
    isCaptchaSize c.data.rect.width c.data.rect.height = true := by
  have hsplit : c ∈ scanImages doc ∨ c ∈ scanCanvas doc ∨ c ∈ scanSvg doc := by
    simpa [scanDoc, List.mem_append, or_assoc] using h
  rcases hsplit with h1 | h2 | h3
  · simp only [scanImages] at h1
    rcases List.mem_filterMap.mp h1 with ⟨iq, _, hf⟩
    by_cases hcond : isLikelyCaptcha doc iq.2.1 iq.2.2 = true
    · rw [if_pos hcond] at hf
      have hc : _ = c := Option.some.inj hf
      subst hc
      refine ⟨rfl, rfl, ?_⟩
      simp only [isLikelyCaptcha, Bool.and_eq_true] at hcond
      exact hcond.1.1
    · rw [if_neg hcond] at hf
      exact absurd hf (by simp)
  · simp only [scanCanvas] at h2
    rcases List.mem_filterMap.mp h2 with ⟨iq, _, hf⟩
    by_cases hcond : isLikelyCanvasCaptcha doc iq.2.1 iq.2.2 = true
    · rw [if_pos hcond] at hf
      have hc : _ = c := Option.some.inj hf
      subst hc
      refine ⟨rfl, rfl, ?_⟩
      simp only [isLikelyCanvasCaptcha, Bool.and_eq_true] at hcond
      exact hcond.1.1
    · rw [if_neg hcond] at hf
      exact absurd hf (by simp)
  · simp only [scanSvg] at h3
    rcases List.mem_filterMap.mp h3 with ⟨iq, _, hf⟩
    by_cases hcond : isLikelySvgCaptcha doc iq.2.1 iq.2.2 = true
    · rw [if_pos hcond] at hf
      have hc : _ = c := Option.some.inj hf
      subst hc
      refine ⟨rfl, rfl, ?_⟩
      simp only [isLikelySvgCaptcha, Bool.and_eq_true] at hcond
      exact hcond.1.1
    · rw [if_neg hcond] at hf
      exact absurd hf (by simp)

/-- The stepwise score of `calculateConfidence` equals the specification's
single additive formula. -/
theorem calculateConfidence_eq_spec (doc : Dom) (p : List Nat) (e : ElemData) :
    calculateConfidence doc p e = specSignalScore doc p e := by
  simp [calculateConfidence, specSignalScore]

/-- C4: every candidate of a scan has confidence equal to the capped sum of
exactly the five independently firing signals (own keywords +30, source URL
+20, ancestor keywords +15, linked input +25, size envelope +10, capped at
100); consequently it lies in [0, 100], and scanning the unchanged document
again yields the identical candidate list. -/
theorem claim_C4_confidence_formula (doc : Dom) (c : Candidate)
    (h : c ∈ scanDoc doc) :
    c.confidence = specSignalScore doc c.path c.data ∧
    c.confidence ≤ 100 ∧
    scanDoc doc = scanDoc doc := by
  have hm := (scanDoc_mem doc c h).1
  rw [calculateConfidence_eq_spec] at hm
  refine ⟨hm, ?_, rfl⟩
  rw [hm, specSignalScore]
  exact Nat.min_le_right _ _

/-- Witness for C4 on the concrete scenario document and its one
candidate. -/
theorem claim_C4_confidence_formula_witness :
    scenarioCandidate.confidence =
      specSignalScore scenarioDoc scenarioCandidate.path
        scenarioCandidate.data ∧
    scenarioCandidate.confidence ≤ 100 ∧
    scanDoc scenarioDoc = scanDoc scenarioDoc :=
  claim_C4_confidence_formula scenarioDoc scenarioCandidate (by decide)

/-- C5: an element sized outside the envelope (width outside [50, 300] px or
height outside [20, 100] px) is never among the scan's candidates, whatever
keywords match: contrapositively, every candidate's element passed
`isCaptchaSize` at scan time. -/
theorem claim_C5_size_envelope (doc : Dom) (c : Candidate)
    (h : c ∈ scanDoc doc) :
    isCaptchaSize c.data.rect.width c.data.rect.height = true :=
  (scanDoc_mem doc c h).2.2

/-- Witness for C5: the scenario candidate's element is inside the envelope;
the keyword-saturated 800×600 image of `oversizedDoc` yields no candidate at
all. -/
theorem claim_C5_size_envelope_witness :
    isCaptchaSize scenarioCandidate.data.rect.width
      scenarioCandidate.data.rect.height = true ∧
    scanDoc oversizedDoc = [] :=
  ⟨claim_C5_size_envelope scenarioDoc scenarioCandidate (by decide),
    by decide⟩

/-- The reduction's result is an element of the list, bounds every element
from above, and strictly exceeds everything before its first occurrence. -/
theorem reduceBest_decomp :
    ∀ (xs : List Candidate) (x : Candidate),
      ∃ pre post, x :: xs = pre ++ reduceBest x xs :: post ∧
        (∀ b ∈ x :: xs, b.confidence ≤ (reduceBest x xs).confidence) ∧
        (∀ b ∈ pre, b.confidence < (reduceBest x xs).confidence) := by
  intro xs
  induction xs with
  | nil =>
      intro x
      refine ⟨[], [], by simp [reduceBest], ?_, by simp⟩
      intro b hb
      simp [reduceBest] at hb ⊢
      rw [hb]
  | cons y ys ih =>
      intro x
      by_cases hxy : x.confidence < y.confidence
      · have hstep : reduceBest x (y :: ys) = reduceBest y ys := by
          simp [reduceBest, hxy]
        rcases ih y with ⟨pre, post, hdec, hmax, hpre⟩
        refine ⟨x :: pre, post, ?_, ?_, ?_⟩
        · rw [hstep]
          simpa using hdec
        · intro b hb
          rw [hstep]
          rcases List.mem_cons.mp hb with rfl | hb2
          · exact le_of_lt (lt_of_lt_of_le hxy (hmax y (by simp)))
          · exact hmax b hb2
        · intro b hb
          rw [hstep]
          rcases List.mem_cons.mp hb with rfl | hb2
          · exact lt_of_lt_of_le hxy (hmax y (by simp))
          · exact hpre b hb2
      · have hstep : reduceBest x (y :: ys) = reduceBest x ys := by
          simp [reduceBest, hxy]
        rcases ih x with ⟨pre, post, hdec, hmax, hpre⟩
        cases pre with
        | nil =>
            have hx : reduceBest x ys = x := by
              simpa using (List.cons.inj (by simpa using hdec)).1.symm
            refine ⟨[], y :: ys, ?_, ?_, by simp⟩
            · rw [hstep, hx]
              simp
            · intro b hb
              rw [hstep, hx]
              rcases List.mem_cons.mp hb with rfl | hb2
              · exact le_refl _
              · rcases List.mem_cons.mp hb2 with rfl | hb3
                · omega
                · have := hmax b (List.mem_cons_of_mem x hb3)
                  rw [hx] at this
                  exact this
        | cons p pre2 =>
            have hinj := List.cons.inj (by simpa using hdec)
            have hxp : x = p := hinj.1
            have hys : ys = pre2 ++ reduceBest x ys :: post := hinj.2
            have hxlt : x.confidence < (reduceBest x ys).confidence := by
              have hp2 := hpre p (by simp)
              rw [← hxp] at hp2
              exact hp2
            refine ⟨x :: y :: pre2, post, ?_, ?_, ?_⟩
            · rw [hstep]
              simpa using congrArg (fun l => x :: y :: l) hys
            · intro b hb
              rw [hstep]
              rcases List.mem_cons.mp hb with rfl | hb2
              · exact hmax b (by simp)
              · rcases List.mem_cons.mp hb2 with rfl | hb3
                · have hx2 := hmax x (by simp)
                  omega
                · exact hmax b (List.mem_cons_of_mem x hb3)
            · intro b hb
              rw [hstep]
              rcases List.mem_cons.mp hb with rfl | hb2
              · exact hxlt
              · rcases List.mem_cons.mp hb2 with rfl | hb3
                · omega
                · exact hpre b (List.mem_cons_of_mem p hb3)

/-- A list that decomposes around a maximal element strictly above its prefix
has that element as its `firstMax`. -/
theorem firstMax_of_decomp (l : List Candidate) (best : Candidate)
    (pre post : List Candidate) (hdec : l = pre ++ best :: post)
    (hmax : ∀ b ∈ l, b.confidence ≤ best.confidence)
    (hpre : ∀ b ∈ pre, b.confidence < best.confidence) :
    firstMax l = some best := by
  have hbestmem : best ∈ l := by
    rw [hdec]
    exact List.mem_append_right _ (by simp)
  have hprednone : List.find? (fun c =>
      l.all fun c2 => decide (c2.confidence ≤ c.confidence)) pre = none := by
    rw [List.find?_eq_none]
    intro b hb hall
    have := List.all_eq_true.mp hall best hbestmem
    have hlt := hpre b hb
    simp at this
    omega
  have hpredbest : (l.all fun c2 =>
      decide (c2.confidence ≤ best.confidence)) = true := by
    rw [List.all_eq_true]
    intro b hb
    simpa using hmax b hb
  simp only [firstMax]
  have hfind : List.find?
      (fun c => l.all fun c2 => decide (c2.confidence ≤ c.confidence)) l =
      List.find?
      (fun c => l.all fun c2 => decide (c2.confidence ≤ c.confidence))
      (pre ++ best :: post) :=
    congrArg _ hdec
  have hcons : List.find?
      (fun c => l.all fun c2 => decide (c2.confidence ≤ c.confidence))
      (best :: post) = some best :=
    List.find?_cons_of_pos _ (by simpa using hpredbest)
  rw [hfind, List.find?_append, hprednone, hcons]
  rfl

/-- C6: `getMostLikelyCaptcha` over the last scan's candidates returns
exactly the first candidate (in scan order) attaining the maximum confidence,
and `none` when the scan produced no candidates. -/
theorem claim_C6_most_likely (doc : Dom) :
    getMostLikelyCaptcha (scanDoc doc) = firstMax (scanDoc doc) ∧
    getMostLikelyCaptcha ([] : List Candidate) = none ∧
    firstMax ([] : List Candidate) = none := by
  refine ⟨?_, rfl, rfl⟩
  cases hl : scanDoc doc with
  | nil => simp [getMostLikelyCaptcha, firstMax]
  | cons x xs =>
      rcases reduceBest_decomp xs x with ⟨pre, post, hdec, hmax, hpre⟩
      rw [getMostLikelyCaptcha,
        firstMax_of_decomp (x :: xs) (reduceBest x xs) pre post hdec hmax hpre]

/-- C7 counterexample: for the §8 scenario document — a visible 120×40 px img
with id "captchaImg" and src "https://example.com/cap.png" sitting 10 px left
of a text input named "vcode" — scan produces exactly one candidate and its
confidence is 65 (own-keyword 30 + linked-input 25 + size 10; neither the src
nor any ancestor matches), which is not at least 85 as claimed. -/
theorem claim_C7_counterexample :
    (scanDoc scenarioDoc).map (fun c => c.confidence) = [65] ∧
    ¬(85 ≤ 65) := by
  exact ⟨by decide, by decide⟩

/-- C7 (amended): for that document, scan produces exactly one image
candidate, its linkedInput resolves to the "vcode" input, and its confidence
is exactly 65 (hence at least 65, not at least 85: the id keyword contributes
30, the linked input 25 and the size envelope 10, while the source URL and
the ancestors match no keyword). -/
theorem claim_C7_scenario :
    scanDoc scenarioDoc = [scenarioCandidate] ∧
    scenarioCandidate.ctype = "image" ∧
    scenarioCandidate.inputElement = some vcodeInput ∧
    scenarioCandidate.confidence = 65 ∧
    65 ≤ scenarioCandidate.confidence := by
  refine ⟨by decide, rfl, rfl, rfl, by decide⟩

/-- C3: for a raster-image candidate, `captureImgElement` issues no network
request at all: it waits (bounded by the 5000 ms timeout, resolving early for
complete or data-URI images and on the load event, rejecting on the error
event or on timeout) and then draws the already-rendered element; when
serialization succeeds the PNG data URL is returned, and when it fails (taint
or the blank `data:,` marker) the original source is returned verbatim iff it
is an inline data URI and otherwise the capture rejects with the descriptive
cross-origin error. -/
theorem claim_C3_capture_no_refetch (m : ImgState) :
    (captureImgElement m).1 = [] ∧
    waitTimeoutMillis = 5000 ∧
    (∀ e, waitForImageLoad m = .error e →
      (captureImgElement m).2 = .error e) ∧
    (waitForImageLoad m = .ok () → ¬effectiveWidth m = 0 →
      ¬effectiveHeight m = 0 → m.taintedSerialize = false →
      ¬m.serializedPng = "data:," →
      (captureImgElement m).2 = .ok m.serializedPng) ∧
    (waitForImageLoad m = .ok () → ¬effectiveWidth m = 0 →
      ¬effectiveHeight m = 0 →
      (m.taintedSerialize = true ∨ m.serializedPng = "data:,") →
      strStarts m.src "data:" = true →
      (captureImgElement m).2 = .ok m.src) ∧
    (waitForImageLoad m = .ok () → ¬effectiveWidth m = 0 →
      ¬effectiveHeight m = 0 →
      (m.taintedSerialize = true ∨ m.serializedPng = "data:,") →
      strStarts m.src "data:" = false →
      (captureImgElement m).2 = .error crossOriginCaptureMsg) := by
  refine ⟨?_, rfl, ?_, ?_, ?_, ?_⟩
  · unfold captureImgElement
    cases hw : waitForImageLoad m with
    | error e => rfl
    | ok u =>
        cases u
        repeat' split
        all_goals rfl
  · intro e hw
    unfold captureImgElement
    rw [hw]
  · intro hw hwid hhei htaint hblank
    unfold captureImgElement
    rw [hw]
    have hd : (effectiveWidth m = 0 || effectiveHeight m = 0) = false := by
      simp [hwid, hhei]
    have hs : (!m.taintedSerialize && !(m.serializedPng = "data:,")) = true := by
      simp [htaint, hblank]
    simp [hd, hs]
  · intro hw hwid hhei hfail hsrc
    unfold captureImgElement
    rw [hw]
    have hd : (effectiveWidth m = 0 || effectiveHeight m = 0) = false := by
      simp [hwid, hhei]
    have hs : (!m.taintedSerialize && !(m.serializedPng = "data:,")) = false := by
      rcases hfail with ht | hb
      · simp [ht]
      · simp [hb]
    simp [hd, hs, hsrc]
  · intro hw hwid hhei hfail hsrc
    unfold captureImgElement
    rw [hw]
    have hd : (effectiveWidth m = 0 || effectiveHeight m = 0) = false := by
      simp [hwid, hhei]
    have hs : (!m.taintedSerialize && !(m.serializedPng = "data:,")) = false := by
      rcases hfail with ht | hb
      · simp [ht]
      · simp [hb]
    simp [hd, hs, hsrc]

/-- Witness for C3: a complete, tainted cross-origin 160×60 image with a
non-data source — no request is issued and the capture rejects with the
cross-origin error. -/
theorem claim_C3_capture_no_refetch_witness :
    (captureImgElement { complete := true, naturalWidth := 160, naturalHeight := 60, renderWidth := 160, renderHeight := 60, src := "https://example.com/captcha.png", loadOutcome := .fires, taintedSerialize := true, serializedPng := "" }).1 = [] ∧
    (captureImgElement { complete := true, naturalWidth := 160, naturalHeight := 60, renderWidth := 160, renderHeight := 60, src := "https://example.com/captcha.png", loadOutcome := .fires, taintedSerialize := true, serializedPng := "" }).2 = .error crossOriginCaptureMsg :=
  ⟨(claim_C3_capture_no_refetch _).1,
    (claim_C3_capture_no_refetch _).2.2.2.2.2 rfl (by decide) (by decide)
      (Or.inl rfl) (by decide)⟩

end AutoCaptcha
